import Mathlib

/-!
Verification of the thumbnail pipeline of the PyImageViewer repository.

The definitions below are a shallow embedding of the source files
`ImageViewer/ThumbnailServer.py`, `ImageViewer/Container.py` and
`ImageViewer/FileBrowser.py` (the `Container` class and the
`FileBrowser.ReceiveImages` drain loop), together with the sizing
algorithm of `PIL.Image.thumbnail`, which `ThumbnailServer.LoadImage`
calls to downscale an image.  Python float arithmetic is modelled with
`ℚ`, Python `//` (floor division) with `Int.fdiv`, and the two ends of
a pipe/queue with explicit lists of messages.
-/

/-- A filesystem path as the pipeline sees it: its full name, its stem
(name without the final suffix) and whether it denotes a directory.
Paths are the correlation keys of the pipeline. -/
structure FsPath where
  name : String
  stem : String
  dir : Bool
deriving DecidableEq, Repr

/-- A decoded raster; the claims only depend on its dimensions. -/
structure Raster where
  width : ℕ
  height : ℕ
deriving DecidableEq, Repr

/-- `logging.WARN` of the Python standard library. -/
def WARN : ℕ := 30

/-- `logging.DEBUG` of the Python standard library. -/
def DEBUG : ℕ := 10

/-- `round_aspect` from `PIL.Image.thumbnail`: picks, between `⌊n⌋` and
`⌈n - 1/2⌉`, the candidate minimising `key` (the first on a tie, as
Python's `min` does), then clamps the result to at least 1. -/
def roundAspect (n : ℚ) (key : ℤ → ℚ) : ℤ :=
  max (if key ⌊n⌋ ≤ key ⌈n - 1/2⌉ then ⌊n⌋ else ⌈n - 1/2⌉) 1

/-- The sizing algorithm of `PIL.Image.thumbnail((sx, sy))` applied to a
`w × h` image: a no-op when the bounding box already contains the image,
otherwise scale the image so that it fits the box, preserving the aspect
ratio up to `round_aspect` rounding.  `LoadImage` in
`ThumbnailServer.py` calls this with the square box
`(containerSize, containerSize)`. -/
def pilThumbnail (w h sx sy : ℕ) : ℕ × ℕ :=
  if w ≤ sx ∧ h ≤ sy then (w, h)
  else
    let aspect : ℚ := (w : ℚ) / (h : ℚ)
    if aspect ≤ (sx : ℚ) / (sy : ℚ) then
      let x := roundAspect ((sy : ℚ) * aspect) (fun n => |aspect - (n : ℚ) / (sy : ℚ)|)
      (x.toNat, sy)
    else
      let y := roundAspect ((sx : ℚ) / aspect)
        (fun n => if n = 0 then 0 else |aspect - (sx : ℚ) / (n : ℚ)|)
      (sx, y.toNat)

/-- A log record emitted by `ThumbnailServer.LoadImage` via `log(...)`:
which of the three f-string messages was sent (each message embeds
`imagePath.name`), and at which logging level. -/
inductive LogEvent
  | loadFailed (name : String)
  | thumbFailed (name : String)
  | loaded (name : String)
deriving DecidableEq, Repr

/-- A `(message, level)` pair as put on the log queue. -/
structure LogMsg where
  event : LogEvent
  level : ℕ
deriving DecidableEq, Repr

/-- The file name embedded in a log message. -/
def LogMsg.mentions (m : LogMsg) (s : String) : Prop :=
  match m.event with
  | .loadFailed n => n = s
  | .thumbFailed n => n = s
  | .loaded n => n = s

instance (m : LogMsg) (s : String) : Decidable (m.mentions s) := by
  unfold LogMsg.mentions
  exact match m.event with
  | .loadFailed n => inferInstanceAs (Decidable (n = s))
  | .thumbFailed n => inferInstanceAs (Decidable (n = s))
  | .loaded n => inferInstanceAs (Decidable (n = s))

/-- Outcome of the two `try` blocks in `LoadImage`: `Image.open` raising,
`Image.thumbnail` raising, or a successful decode of a `w × h` image. -/
inductive DecodeOutcome
  | openFail
  | thumbFail
  | ok (w h : ℕ)
deriving DecidableEq, Repr

/-- What one call of the worker function `ThumbnailServer.LoadImage`
does: the log messages it queues, the messages it sends on the pipe back
to the file browser, and whether an exception escapes the function. -/
structure WorkerRun where
  logs : List LogMsg
  sent : List (FsPath × Option Raster)
  raised : Bool
deriving DecidableEq, Repr

/-- The decode part of `LoadImage` (the `try/except/else` chains): on
either failure it logs one warning embedding `imagePath.name` and leaves
`image = None`; on success it logs at DEBUG level and produces the
thumbnailed raster. -/
def decodePart (p : FsPath) (containerSize : ℕ) : DecodeOutcome → List LogMsg × Option Raster
  | .openFail => ([⟨.loadFailed p.name, WARN⟩], none)
  | .thumbFail => ([⟨.thumbFailed p.name, WARN⟩], none)
  | .ok w h =>
      ([⟨.loaded p.name, DEBUG⟩],
        some ⟨(pilThumbnail w h containerSize containerSize).1,
              (pilThumbnail w h containerSize containerSize).2⟩)

/-- `ThumbnailServer.LoadImage`: decode, then unconditionally
`lock.acquire(); parentConn.send((imagePath, image)); lock.release()`.
The `send` is not wrapped in any `try/except` and is not guarded by any
shutdown check (despite the comment above it), so when the pipe has
already been closed the send error escapes the function: `raised` is
true and nothing is published. -/
def LoadImage (p : FsPath) (containerSize : ℕ) (oc : DecodeOutcome)
    (channelOpen : Bool) : WorkerRun :=
  let r := decodePart p containerSize oc
  if channelOpen then ⟨r.1, [(p, r.2)], false⟩ else ⟨r.1, [], true⟩

/-- A message received on the inbound pipe by `ThumbnailServer.run`:
the Python tuple `(imagePath, containerSize)` where either component may
be `None`.  The reserved shutdown sentinel is `(None, None)`. -/
abbrev Msg := Option FsPath × Option ℕ

/-- What `ThumbnailServer.run` does with one received message:
`if imagePath is not None and containerSize is not None` it dispatches a
pool job, otherwise it breaks out of the loop and shuts down. -/
inductive StepAction
  | dispatch (p : FsPath) (size : ℕ)
  | shutdown
deriving DecidableEq, Repr

/-- One iteration of the `while True` loop of `ThumbnailServer.run`. -/
def engineStep : Msg → StepAction
  | (some p, some s) => .dispatch p s
  | (some _, none) => .shutdown
  | (none, _) => .shutdown

/-- Observable actions of `ThumbnailServer.run`: dispatching a request
to the pool, closing both pipe ends, and leaving the `with mp.Pool(...)`
block, which terminates the pool and abandons in-flight tasks. -/
inductive EngineEvent
  | dispatch (p : FsPath) (size : ℕ)
  | closeChannels
  | terminatePool
deriving DecidableEq, Repr

/-- The trace of `ThumbnailServer.run` over a list of inbound messages:
requests are dispatched until a message with a `None` component arrives;
then `parentConn.close(); childConn.close()` run, and afterwards the
`with` block exits, terminating the pool.  An empty list means the loop
is still blocked in `recv` and nothing further is observable. -/
def engineRun : List Msg → List EngineEvent
  | [] => []
  | m :: rest =>
    match engineStep m with
    | .dispatch p s => .dispatch p s :: engineRun rest
    | .shutdown => [.closeChannels, .terminatePool]

/-- First index of an event in a trace. -/
def firstIdx (tr : List EngineEvent) (e : EngineEvent) : Option ℕ :=
  tr.findIdx? (fun x => x = e)

/-- The ordering asserted by the spec's shutdown protocol: the pool is
terminated (in-flight tasks completed or abandoned) strictly before the
channels are closed. -/
def poolDownBeforeClose (tr : List EngineEvent) : Bool :=
  match firstIdx tr .terminatePool, firstIdx tr .closeChannels with
  | some i, some j => decide (i < j)
  | _, _ => false

/-- The results published for a list of dispatched requests, given each
path's decode outcome, while the outbound channel is open: each worker
runs `LoadImage` and its sent messages are concatenated. -/
def engineResults : List (FsPath × ℕ) → (FsPath → DecodeOutcome) → List (FsPath × Option Raster)
  | [], _ => []
  | r :: rest, oc => (LoadImage r.1 r.2 (oc r.1) true).sent ++ engineResults rest oc

/-- Which `pyglet.image.ImageData` object a sprite currently displays:
the class-level loading icon, the class-level folder icon, or a raster
received from the thumbnail server. -/
inductive ImgData
  | iconLoading
  | iconFolder
  | fromServer (r : Raster)
deriving DecidableEq, Repr

/-- A `pyglet.sprite.Sprite` as the `Container` uses it: displayed
image, its dimensions, opacity and position. -/
structure SpriteState where
  image : ImgData
  width : ℕ
  height : ℕ
  opacity : ℕ
  x : ℤ
  y : ℤ
deriving DecidableEq, Repr

/-- A `pyglet.text.Label` as the `Container` uses it. -/
structure LabelState where
  text : String
  x : ℚ
  y : ℚ
deriving DecidableEq, Repr

/-- A gridline (`pyglet.shapes.Line`) of a container. -/
structure LineState where
  x : ℤ
  y : ℤ
  x2 : ℤ
  y2 : ℤ
  lineVisible : Bool
deriving DecidableEq, Repr

/-- `Container.marginPix`. -/
def marginPix : ℤ := 20

/-- The state of one `Container` (identical in `Container.py` and in the
`Container` class of `FileBrowser.py`, up to the lock being taken with
`with` versus acquire/release).  The class-level `containerSize`,
`imageSize` and icon thumbnails are carried as fields. -/
structure Container where
  path : FsPath
  sprite : Option SpriteState
  x : ℤ
  y : ℤ
  screenHeight : ℤ
  containerSize : ℤ
  imageSize : ℤ
  loadingIcon : Raster
  folderIcon : Raster
  imageLoaded : Bool
  imageLoading : Bool
  label : Option LabelState
  gridLines : List LineState
  gridLinesShown : Bool
deriving DecidableEq, Repr

/-- `Container.visible`: true when any part of the container is on
screen, exactly as computed from `_y`, `containerSize` and
`screenHeight` in the source. -/
def visibleAt (sh cs y : ℤ) : Bool :=
  (0 ≤ y && y < sh) || (0 ≤ y + cs && y + cs < sh)

def Container.visible (c : Container) : Bool :=
  visibleAt c.screenHeight c.containerSize c.y

/-- The label text: the stem, truncated to its first and last ten
characters when longer than 23 characters. -/
def labelText (stem : String) : String :=
  if stem.length ≤ 23 then stem
  else stem.take 10 ++ "..." ++ stem.drop (stem.length - 10)

/-- `Container.InitialiseSprite`: replace the sprite by a folder-icon
sprite (full opacity) or a loading-icon sprite at opacity 64, centre it
in the thumbnail space, and create the label and gridlines if absent. -/
def Container.InitialiseSprite (c : Container) : Container :=
  let s0 : SpriteState :=
    if c.path.dir then
      { image := .iconFolder, width := c.folderIcon.width, height := c.folderIcon.height,
        opacity := 255, x := 0, y := 0 }
    else
      { image := .iconLoading, width := c.loadingIcon.width, height := c.loadingIcon.height,
        opacity := 64, x := 0, y := 0 }
  let xShift := (c.imageSize - (s0.width : ℤ)).fdiv 2
  let yShift := (c.imageSize - (s0.height : ℤ)).fdiv 2
  let s1 := { s0 with x := c.x + marginPix + xShift, y := c.y + marginPix + yShift }
  let lbl :=
    match c.label with
    | some l => some l
    | none => some { text := labelText c.path.stem,
                     x := (c.x : ℚ) + (c.containerSize : ℚ) / 2,
                     y := (c.y : ℚ) + (marginPix : ℚ) / 2 }
  let gls :=
    if c.gridLines.isEmpty then
      [ { x := c.x, y := c.y, x2 := c.x, y2 := c.y + c.containerSize,
          lineVisible := c.gridLinesShown },
        { x := c.x, y := c.y + c.containerSize, x2 := c.x + c.containerSize,
          y2 := c.y + c.containerSize, lineVisible := c.gridLinesShown },
        { x := c.x + c.containerSize, y := c.y + c.containerSize,
          x2 := c.x + c.containerSize, y2 := c.y, lineVisible := c.gridLinesShown },
        { x := c.x + c.containerSize, y := c.y, x2 := c.x, y2 := c.y,
          lineVisible := c.gridLinesShown } ]
    else c.gridLines
  { c with sprite := some s1, label := lbl, gridLines := gls }

/-- `Container.delete`: tear down sprite, label and gridlines. -/
def Container.del (c : Container) : Container :=
  { c with sprite := none, label := none, gridLines := [] }

/-- `Container.ReceiveImage`: clear `imageLoading`; when a raster
arrived and a sprite exists, display the raster at full opacity and
re-centre the sprite (Python `//` is floor division). -/
def Container.ReceiveImage (c : Container) (image : Option Raster) : Container :=
  match image, c.sprite with
  | some img, some s =>
      let s1 := { s with image := .fromServer img, width := img.width, height := img.height,
                         opacity := 255 }
      let xShift := (c.imageSize - (s1.width : ℤ)).fdiv 2
      let yShift := (c.imageSize - (s1.height : ℤ)).fdiv 2
      { c with imageLoading := false,
               sprite := some { s1 with x := c.x + marginPix + xShift,
                                        y := c.y + marginPix + yShift } }
  | _, _ => { c with imageLoading := false }

/-- `Container._updateSprite`: when visible, initialise the sprite if it
is gone, and submit one `(path, imageSize)` request to the thumbnail
server unless the image is already loaded or the path is a directory;
when invisible, reset both flags and tear the visuals down.  The second
component collects the requests put on the `toTS` queue. -/
def Container.updateSprite (c : Container) : Container × List (FsPath × ℤ) :=
  if c.visible then
    let c1 := if c.sprite.isNone then c.InitialiseSprite else c
    if !c1.imageLoaded && !c1.path.dir then
      ({ c1 with imageLoaded := true, imageLoading := true }, [(c1.path, c1.imageSize)])
    else
      (c1, [])
  else
    ({ c.del with imageLoaded := false, imageLoading := false }, [])

/-- The `path` property setter: store the path, `InitialiseSprite`,
then `_updateSprite`. -/
def Container.setPath (c : Container) (p : FsPath) : Container × List (FsPath × ℤ) :=
  (({ c with path := p }).InitialiseSprite).updateSprite

/-- The first half of the `y` property setter: shift sprite, label and
gridlines by the scroll amount and store the new `_y`. -/
def Container.shiftY (c : Container) (y : ℤ) : Container :=
  let scroll := y - c.y
  { c with
    sprite := c.sprite.map (fun (s : SpriteState) => { s with y := s.y + scroll }),
    label := c.label.map (fun (l : LabelState) => { l with y := l.y + (scroll : ℚ) }),
    gridLines := c.gridLines.map
      (fun (g : LineState) => { g with y := g.y + scroll, y2 := g.y2 + scroll }),
    y := y }

/-- The `y` property setter: shift everything by the scroll amount,
then `_updateSprite`. -/
def Container.setY (c : Container) (y : ℤ) : Container × List (FsPath × ℤ) :=
  (c.shiftY y).updateSprite

/-- Run a sequence of vertical scroll moves (`y` setter calls),
collecting every request submitted to the thumbnail server. -/
def Container.runYs : Container → List ℤ → Container × List (FsPath × ℤ)
  | c, [] => (c, [])
  | c, y :: ys =>
    let r := c.setY y
    let rest := r.1.runYs ys
    (rest.1, r.2 ++ rest.2)

/-- Membership test / indexing of the `thumbnailDict` of
`FileBrowser.ReceiveImages` (a Python dict keyed by `Path`). -/
def lookupC : List (FsPath × Container) → FsPath → Option Container
  | [], _ => none
  | kc :: rest, p => if kc.1 = p then some kc.2 else lookupC rest p

/-- One result handled inside the drain loop of
`FileBrowser.ReceiveImages`: `if path in self.thumbnailDict:
self.thumbnailDict[path].ReceiveImage(fullImage)`; an untracked path is
skipped. -/
def applyResult (d : List (FsPath × Container)) (p : FsPath) (img : Option Raster) :
    List (FsPath × Container) :=
  if (lookupC d p).isSome then
    d.map (fun kc => if kc.1 = p then (kc.1, kc.2.ReceiveImage img) else kc)
  else d

/-- The whole drain pass: handle every currently available result. -/
def drainAll (d : List (FsPath × Container)) : List (FsPath × Option Raster) → List (FsPath × Container)
  | [] => d
  | (p, img) :: rest => drainAll (applyResult d p img) rest

/-- The sprite appearance a container renders: displayed image data and
opacity. -/
def appearanceOf (c : Container) : Option (ImgData × ℕ) :=
  c.sprite.map (fun s => (s.image, s.opacity))

/-- A concrete file path used in counterexamples and witnesses. -/
def exPath : FsPath := { name := "a.png", stem := "a", dir := false }

/-- A freshly constructed container (as built by
`FileBrowser._GetThumbnails`) at grid position (0, 0) on a 500-pixel
screen, before its `path` property is assigned. -/
def exContainer : Container :=
  { path := { name := "", stem := "", dir := false }, sprite := none, x := 0, y := 0,
    screenHeight := 500, containerSize := 100, imageSize := 60,
    loadingIcon := { width := 60, height := 60 }, folderIcon := { width := 60, height := 60 },
    imageLoaded := false, imageLoading := false, label := none, gridLines := [],
    gridLinesShown := false }

/-- `exContainer` just after its `path` is set: loading icon shown at
opacity 64, one request submitted, `imageLoading = true`. -/
def exLoading : Container := (exContainer.setPath exPath).1

/-- A second concrete path, distinct from `exPath`. -/
def exPathB : FsPath := { name := "b.jpg", stem := "b", dir := false }

/-- A one-entry `thumbnailDict` tracking `exPath`. -/
def exDict : List (FsPath × Container) := [(exPath, exLoading)]

theorem roundAspect_le (n : ℚ) (key : ℤ → ℚ) (B : ℤ)
    (h1 : ⌊n⌋ ≤ B) (h2 : ⌈n - 1/2⌉ ≤ B) (hB : 1 ≤ B) :
    roundAspect n key ≤ B := by
  unfold roundAspect
  rcases le_or_lt (key ⌊n⌋) (key ⌈n - 1/2⌉) with h | h
  · rw [if_pos h]; exact max_le h1 hB
  · rw [if_neg (not_le.mpr h)]; exact max_le h2 hB

theorem roundAspect_intCast (z : ℤ) (hz : 1 ≤ z) (key : ℤ → ℚ) :
    roundAspect (z : ℚ) key = z := by
  have h1 : ⌊(z : ℚ)⌋ = z := Int.floor_intCast z
  have h2 : (⌈(z : ℚ) - 1/2⌉ : ℤ) = z := by
    rw [Int.ceil_eq_iff]
    constructor
    · linarith
    · linarith
  rw [roundAspect, h1, h2, if_pos le_rfl, max_eq_left hz]

theorem pilThumbnail_concrete : pilThumbnail 1000 500 200 200 = (200, 100) := by
  have hg : ¬((1000:ℕ) ≤ 200 ∧ (500:ℕ) ≤ 200) := by decide
  simp only [pilThumbnail, if_neg hg]
  have hcond : ¬(((1000:ℕ):ℚ)/((500:ℕ):ℚ) ≤ ((200:ℕ):ℚ)/((200:ℕ):ℚ)) := by
    push_cast; norm_num
  rw [if_neg hcond]
  have harg : ((200:ℕ):ℚ) / (((1000:ℕ):ℚ)/((500:ℕ):ℚ)) = ((100:ℤ):ℚ) := by
    push_cast; norm_num
  rw [harg, roundAspect_intCast 100 (by norm_num)]
  rfl

theorem pilThumbnail_le (w h s : ℕ) (hw : 1 ≤ w) (hh : 1 ≤ h) (hs : 1 ≤ s) :
    (pilThumbnail w h s s).1 ≤ w ∧ (pilThumbnail w h s s).2 ≤ h ∧
    ((s < w ∨ s < h) → max (pilThumbnail w h s s).1 (pilThumbnail w h s s).2 = s) := by
  have hw0 : (0:ℚ) < (w:ℚ) := by exact_mod_cast Nat.lt_of_lt_of_le Nat.zero_lt_one hw
  have hh0 : (0:ℚ) < (h:ℚ) := by exact_mod_cast Nat.lt_of_lt_of_le Nat.zero_lt_one hh
  have hs0 : (0:ℚ) < (s:ℚ) := by exact_mod_cast Nat.lt_of_lt_of_le Nat.zero_lt_one hs
  by_cases hg : w ≤ s ∧ h ≤ s
  · simp only [pilThumbnail, if_pos hg]
    exact ⟨le_rfl, le_rfl, fun hlt => by omega⟩
  · have hss : (s:ℚ)/(s:ℚ) = 1 := div_self (ne_of_gt hs0)
    by_cases hbr : (w:ℚ)/(h:ℚ) ≤ (s:ℚ)/(s:ℚ)
    · -- landscape box relative to image: height is the binding side
      have hwh : w ≤ h := by
        rw [hss, div_le_one hh0] at hbr
        exact_mod_cast hbr
      have hsh : s < h := by omega
      have hshq : (s:ℚ) < (h:ℚ) := by exact_mod_cast hsh
      have hwhq : (w:ℚ) ≤ (h:ℚ) := by exact_mod_cast hwh
      simp only [pilThumbnail, if_neg hg, if_pos hbr]
      have hn_lt_w : (s:ℚ) * ((w:ℚ)/(h:ℚ)) < (w:ℚ) := by
        rw [mul_div_assoc', div_lt_iff₀ hh0]
        nlinarith
      have hn_le_s : (s:ℚ) * ((w:ℚ)/(h:ℚ)) ≤ (s:ℚ) := by
        have h1 : (w:ℚ)/(h:ℚ) ≤ 1 := (div_le_one hh0).mpr hwhq
        nlinarith
      have hfl_w : ⌊(s:ℚ) * ((w:ℚ)/(h:ℚ))⌋ ≤ (w:ℤ) := by
        have := Int.floor_le_floor hn_lt_w.le
        rwa [Int.floor_natCast] at this
      have hfl_s : ⌊(s:ℚ) * ((w:ℚ)/(h:ℚ))⌋ ≤ (s:ℤ) := by
        have := Int.floor_le_floor hn_le_s
        rwa [Int.floor_natCast] at this
      have hcl_w : ⌈(s:ℚ) * ((w:ℚ)/(h:ℚ)) - 1/2⌉ ≤ (w:ℤ) := by
        rw [Int.ceil_le]; push_cast; linarith
      have hcl_s : ⌈(s:ℚ) * ((w:ℚ)/(h:ℚ)) - 1/2⌉ ≤ (s:ℤ) := by
        rw [Int.ceil_le]; push_cast; linarith
      have hx_w : (roundAspect ((s:ℚ) * ((w:ℚ)/(h:ℚ)))
          (fun n => |(w:ℚ)/(h:ℚ) - (n : ℚ) / (s:ℚ)|)).toNat ≤ w :=
        Int.toNat_le.mpr (roundAspect_le _ _ _ hfl_w hcl_w (by exact_mod_cast hw))
      have hx_s : (roundAspect ((s:ℚ) * ((w:ℚ)/(h:ℚ)))
          (fun n => |(w:ℚ)/(h:ℚ) - (n : ℚ) / (s:ℚ)|)).toNat ≤ s :=
        Int.toNat_le.mpr (roundAspect_le _ _ _ hfl_s hcl_s (by exact_mod_cast hs))
      exact ⟨hx_w, hsh.le, fun _ => max_eq_right hx_s⟩
    · -- portrait box relative to image: width is the binding side
      have hhw : h < w := by
        rw [hss, not_le, lt_div_iff₀ hh0, one_mul] at hbr
        exact_mod_cast hbr
      have hsw : s < w := by omega
      have hswq : (s:ℚ) < (w:ℚ) := by exact_mod_cast hsw
      have hhwq : (h:ℚ) < (w:ℚ) := by exact_mod_cast hhw
      simp only [pilThumbnail, if_neg hg, if_neg hbr]
      have hdiv : (s:ℚ) / ((w:ℚ)/(h:ℚ)) = (s:ℚ) * (h:ℚ) / (w:ℚ) := by
        rw [div_div_eq_mul_div]
      have hn_lt_h : (s:ℚ) / ((w:ℚ)/(h:ℚ)) < (h:ℚ) := by
        rw [hdiv, div_lt_iff₀ hw0]
        nlinarith
      have hn_le_s : (s:ℚ) / ((w:ℚ)/(h:ℚ)) ≤ (s:ℚ) := by
        rw [hdiv, div_le_iff₀ hw0]
        nlinarith
      have hfl_h : ⌊(s:ℚ) / ((w:ℚ)/(h:ℚ))⌋ ≤ (h:ℤ) := by
        have := Int.floor_le_floor hn_lt_h.le
        rwa [Int.floor_natCast] at this
      have hfl_s : ⌊(s:ℚ) / ((w:ℚ)/(h:ℚ))⌋ ≤ (s:ℤ) := by
        have := Int.floor_le_floor hn_le_s
        rwa [Int.floor_natCast] at this
      have hcl_h : ⌈(s:ℚ) / ((w:ℚ)/(h:ℚ)) - 1/2⌉ ≤ (h:ℤ) := by
        rw [Int.ceil_le]; push_cast; linarith
      have hcl_s : ⌈(s:ℚ) / ((w:ℚ)/(h:ℚ)) - 1/2⌉ ≤ (s:ℤ) := by
        rw [Int.ceil_le]; push_cast; linarith
      have hy_h : (roundAspect ((s:ℚ) / ((w:ℚ)/(h:ℚ)))
          (fun n => if n = 0 then 0 else |(w:ℚ)/(h:ℚ) - (s:ℚ) / (n : ℚ)|)).toNat ≤ h :=
        Int.toNat_le.mpr (roundAspect_le _ _ _ hfl_h hcl_h (by exact_mod_cast hh))
      have hy_s : (roundAspect ((s:ℚ) / ((w:ℚ)/(h:ℚ)))
          (fun n => if n = 0 then 0 else |(w:ℚ)/(h:ℚ) - (s:ℚ) / (n : ℚ)|)).toNat ≤ s :=
        Int.toNat_le.mpr (roundAspect_le _ _ _ hfl_s hcl_s (by exact_mod_cast hs))
      exact ⟨hsw.le, hy_h, fun _ => max_eq_left hy_s⟩

theorem initialiseSprite_fields (c : Container) :
    c.InitialiseSprite.path = c.path ∧ c.InitialiseSprite.imageLoaded = c.imageLoaded ∧
    c.InitialiseSprite.imageLoading = c.imageLoading ∧
    c.InitialiseSprite.screenHeight = c.screenHeight ∧
    c.InitialiseSprite.containerSize = c.containerSize ∧
    c.InitialiseSprite.imageSize = c.imageSize ∧
    c.InitialiseSprite.x = c.x ∧ c.InitialiseSprite.y = c.y :=
  ⟨rfl, rfl, rfl, rfl, rfl, rfl, rfl, rfl⟩

theorem updateSprite_fields (c : Container) :
    (c.updateSprite).1.path = c.path ∧
    (c.updateSprite).1.screenHeight = c.screenHeight ∧
    (c.updateSprite).1.containerSize = c.containerSize ∧
    (c.updateSprite).1.imageSize = c.imageSize ∧
    ∀ r ∈ (c.updateSprite).2, r = (c.path, c.imageSize) := by
  unfold Container.updateSprite
  by_cases hv : c.visible <;> by_cases hsp : c.sprite.isNone <;>
    simp [hv, hsp, Container.del, initialiseSprite_fields] <;>
      by_cases hl : c.imageLoaded <;> by_cases hd : c.path.dir <;>
        simp [hl, hd, initialiseSprite_fields]

theorem updateSprite_visible_emit (c : Container)
    (hv : visibleAt c.screenHeight c.containerSize c.y = true) :
    (c.imageLoaded = true ∧ (c.updateSprite).2 = [] ∧ (c.updateSprite).1.imageLoaded = true) ∨
    (c.imageLoaded = false ∧ (c.updateSprite).2 = [] ∧ (c.updateSprite).1.imageLoaded = false) ∨
    (c.imageLoaded = false ∧ (c.updateSprite).2.length = 1 ∧
      (c.updateSprite).1.imageLoaded = true) := by
  unfold Container.updateSprite Container.visible
  by_cases hsp : c.sprite.isNone <;> by_cases hl : c.imageLoaded <;>
    by_cases hd : c.path.dir <;>
      simp [hv, hsp, hl, hd, initialiseSprite_fields]

theorem setY_fields (c : Container) (y : ℤ) :
    (c.setY y).1.path = c.path ∧
    (c.setY y).1.screenHeight = c.screenHeight ∧
    (c.setY y).1.containerSize = c.containerSize ∧
    (c.setY y).1.imageSize = c.imageSize ∧
    ∀ r ∈ (c.setY y).2, r = (c.path, c.imageSize) := by
  unfold Container.setY
  have h := updateSprite_fields (c.shiftY y)
  simpa [Container.shiftY] using h

theorem setY_emit (c : Container) (y : ℤ)
    (hv : visibleAt c.screenHeight c.containerSize y = true) :
    (c.imageLoaded = true ∧ (c.setY y).2 = [] ∧ (c.setY y).1.imageLoaded = true) ∨
    (c.imageLoaded = false ∧ (c.setY y).2 = [] ∧ (c.setY y).1.imageLoaded = false) ∨
    (c.imageLoaded = false ∧ (c.setY y).2.length = 1 ∧ (c.setY y).1.imageLoaded = true) := by
  unfold Container.setY
  have h := updateSprite_visible_emit (c.shiftY y) (by simpa [Container.shiftY] using hv)
  simpa [Container.shiftY] using h

theorem runYs_requests_le (ys : List ℤ) (c : Container)
    (hv : ∀ y ∈ ys, visibleAt c.screenHeight c.containerSize y = true) :
    (c.runYs ys).2.length ≤ if c.imageLoaded then 0 else 1 := by
  induction ys generalizing c with
  | nil => simp [Container.runYs]
  | cons y ys ih =>
    have hvy : visibleAt c.screenHeight c.containerSize y = true := hv y (by simp)
    have hf := setY_fields c y
    have hv2 : ∀ z ∈ ys, visibleAt (c.setY y).1.screenHeight (c.setY y).1.containerSize z = true := by
      intro z hz
      rw [hf.2.1, hf.2.2.1]
      exact hv z (by simp [hz])
    have hrest := ih (c.setY y).1 hv2
    rcases setY_emit c y hvy with ⟨hl, he, hl2⟩ | ⟨hl, he, hl2⟩ | ⟨hl, he, hl2⟩ <;>
      simp only [Container.runYs, hl, hl2, he] at hrest ⊢ <;>
        simp_all <;> omega

theorem runYs_at_most_one (c : Container) (ys : List ℤ)
    (hv : ∀ y ∈ ys, visibleAt c.screenHeight c.containerSize y = true) :
    (c.runYs ys).2.length ≤ 1 := by
  have h := runYs_requests_le ys c hv
  split at h <;> omega

theorem receiveImage_none_frame (c : Container) (img : Option Raster)
    (h : img = none ∨ c.sprite = none) :
    c.ReceiveImage img = { c with imageLoading := false } := by
  rcases h with rfl | hs
  · cases hsp : c.sprite <;> simp [Container.ReceiveImage, hsp]
  · cases img <;> simp [Container.ReceiveImage, hs]

theorem receiveImage_imageLoading (c : Container) (img : Option Raster) :
    (c.ReceiveImage img).imageLoading = false := by
  unfold Container.ReceiveImage
  cases img <;> cases hs : c.sprite <;> simp [hs]

theorem receiveImage_fields (c : Container) (img : Option Raster) :
    (c.ReceiveImage img).path = c.path ∧ (c.ReceiveImage img).imageLoaded = c.imageLoaded ∧
    (c.ReceiveImage img).screenHeight = c.screenHeight ∧
    (c.ReceiveImage img).containerSize = c.containerSize ∧
    (c.ReceiveImage img).label = c.label ∧ (c.ReceiveImage img).gridLines = c.gridLines := by
  unfold Container.ReceiveImage
  cases img <;> cases hs : c.sprite <;> simp [hs]

theorem lookupC_mapReceive_self (d : List (FsPath × Container)) (p : FsPath) (img : Option Raster) :
    lookupC (d.map (fun kc => if kc.1 = p then (kc.1, kc.2.ReceiveImage img) else kc)) p
      = (lookupC d p).map (fun c => c.ReceiveImage img) := by
  induction d with
  | nil => rfl
  | cons kc d ih => by_cases hk : kc.1 = p <;> simp [lookupC, hk, ih]

theorem lookupC_mapReceive_ne (d : List (FsPath × Container)) (p q : FsPath)
    (img : Option Raster) (h : q ≠ p) :
    lookupC (d.map (fun kc => if kc.1 = p then (kc.1, kc.2.ReceiveImage img) else kc)) q
      = lookupC d q := by
  induction d with
  | nil => rfl
  | cons kc d ih =>
    by_cases hk : kc.1 = p <;> by_cases hq : kc.1 = q <;>
      simp [lookupC, hk, hq, ih] <;> simp_all

theorem applyResult_not_tracked (d : List (FsPath × Container)) (p : FsPath)
    (img : Option Raster) (h : lookupC d p = none) : applyResult d p img = d := by
  unfold applyResult
  rw [h]
  rfl

theorem applyResult_tracked (d : List (FsPath × Container)) (p : FsPath)
    (img : Option Raster) (c : Container) (h : lookupC d p = some c) :
    lookupC (applyResult d p img) p = some (c.ReceiveImage img) := by
  unfold applyResult
  rw [h]
  simp [lookupC_mapReceive_self, h]

theorem applyResult_other (d : List (FsPath × Container)) (p q : FsPath)
    (img : Option Raster) (h : q ≠ p) :
    lookupC (applyResult d p img) q = lookupC d q := by
  unfold applyResult
  by_cases hp : (lookupC d p).isSome <;> simp [hp, lookupC_mapReceive_ne d p q img h]

theorem loadImage_closed (p : FsPath) (cs : ℕ) (oc : DecodeOutcome) :
    (LoadImage p cs oc false).raised = true ∧ (LoadImage p cs oc false).sent = [] :=
  ⟨rfl, rfl⟩

theorem loadImage_failure (p : FsPath) (cs : ℕ) (oc : DecodeOutcome)
    (h : oc = .openFail ∨ oc = .thumbFail) :
    (LoadImage p cs oc true).sent = [(p, none)] ∧
    (LoadImage p cs oc true).logs.map LogMsg.level = [WARN] ∧
    ∀ m ∈ (LoadImage p cs oc true).logs, m.mentions p.name := by
  rcases h with rfl | rfl <;>
    exact ⟨rfl, rfl, by intro m hm; simp [LoadImage, decodePart] at hm; subst hm; rfl⟩

theorem engineRun_protocol (reqs : List (FsPath × ℕ)) (rest : List Msg) :
    engineRun (reqs.map (fun r => ((some r.1, some r.2) : Msg)) ++ (none, none) :: rest)
      = reqs.map (fun r => EngineEvent.dispatch r.1 r.2) ++
          [EngineEvent.closeChannels, EngineEvent.terminatePool] := by
  induction reqs with
  | nil => rfl
  | cons r reqs ih => simp [engineRun, engineStep, ih]

theorem engineResults_keys (reqs : List (FsPath × ℕ)) (oc : FsPath → DecodeOutcome) :
    (engineResults reqs oc).map Prod.fst = reqs.map Prod.fst := by
  induction reqs with
  | nil => rfl
  | cons r reqs ih => simp [engineResults, LoadImage, ih]

theorem engineStep_shutdown_iff (m : Msg) :
    engineStep m = StepAction.shutdown ↔ (m.1 = none ∨ m.2 = none) := by
  rcases m with ⟨_ | p, _ | s⟩ <;> simp [engineStep]

theorem runYs_requests_mem (ys : List ℤ) (c : Container) :
    ∀ r ∈ (c.runYs ys).2, r = (c.path, c.imageSize) := by
  induction ys generalizing c with
  | nil => simp [Container.runYs]
  | cons y ys ih =>
    intro r hr
    simp only [Container.runYs, List.mem_append] at hr
    rcases hr with hr | hr
    · exact (setY_fields c y).2.2.2.2 r hr
    · have h := ih (c.setY y).1 r hr
      rwa [(setY_fields c y).1, (setY_fields c y).2.2.2.1] at h

/-- C1 (counterexample): the claim that no second request is ever
enqueued for a path while one is outstanding fails across visibility
transitions.  Concretely: assigning `exPath` to a visible container
submits `(exPath, 60)`; scrolling it off screen (`y := -600`) resets
`imageLoaded`; scrolling it back (`y := 0`) submits `(exPath, 60)` a
second time — with no result received in between, the duplicate request
is on the queue. -/
theorem duplicate_request_after_flicker :
    (let r1 := exContainer.setPath exPath
     let r2 := r1.1.setY (-600)
     let r3 := r2.1.setY 0
     r1.2 ++ r2.2 ++ r3.2) = [(exPath, 60), (exPath, 60)] := by decide

/-- C1 (amended): while a container stays visible, `_updateSprite`
submits at most one request, and every request it ever submits is for
its own path with its own image size; a duplicate submission for the
same path can only arise after the container has gone invisible (which
resets `imageLoaded`) and become visible again. -/
theorem single_request_while_visible (c : Container) (ys : List ℤ)
    (hv : ∀ y ∈ ys, visibleAt c.screenHeight c.containerSize y = true) :
    (c.runYs ys).2.length ≤ 1 ∧ ∀ r ∈ (c.runYs ys).2, r = (c.path, c.imageSize) :=
  ⟨runYs_at_most_one c ys hv, runYs_requests_mem ys c⟩

/-- C1 (witness): the amended theorem applied to a concrete container
scrolled twice within the visible range. -/
theorem single_request_while_visible_witness :
    (∀ y ∈ [(0:ℤ), 10], visibleAt exContainer.screenHeight exContainer.containerSize y = true) ∧
    ((exContainer.runYs [0, 10]).2.length ≤ 1 ∧
      ∀ r ∈ (exContainer.runYs [0, 10]).2, r = (exContainer.path, exContainer.imageSize)) :=
  ⟨by decide, single_request_while_visible exContainer [0, 10] (by decide)⟩

/-- C2: the worker's publish after the outbound channel is closed is
not swallowed: `LoadImage` performs the `parentConn.send` with no
`try/except` and no shutdown check, so for every decode outcome the
channel-closed error escapes the worker function and nothing is
published.  This contradicts both the spec and the source comment
("if the Process isn't shutting down"), which promise a silent drop. -/
theorem closed_channel_send_escapes_worker (p : FsPath) (cs : ℕ) (oc : DecodeOutcome) :
    (LoadImage p cs oc false).raised = true ∧ (LoadImage p cs oc false).sent = [] :=
  ⟨rfl, rfl⟩

/-- C3 (counterexample): on receiving the sentinel `(None, None)` the
engine closes both pipe ends first and only afterwards leaves the
`with mp.Pool(...)` block, which is what terminates (abandons) in-flight
worker tasks — the claimed order "wait for in-flight tasks, then close
both channel ends" does not hold on the concrete sentinel-only run. -/
theorem close_precedes_pool_shutdown :
    engineRun [(none, none)] = [EngineEvent.closeChannels, EngineEvent.terminatePool] ∧
    poolDownBeforeClose (engineRun [(none, none)]) = false := by decide

/-- C3 (amended): on receiving the sentinel the engine stops accepting
new requests (messages after the sentinel are never dispatched), closes
both channel ends, and then the pool is terminated, abandoning
in-flight tasks; a worker publishing on the closed channel makes no
result observable. -/
theorem shutdown_protocol (reqs : List (FsPath × ℕ)) (rest : List Msg)
    (p : FsPath) (cs : ℕ) (oc : DecodeOutcome) :
    engineRun (reqs.map (fun r => ((some r.1, some r.2) : Msg)) ++ (none, none) :: rest)
      = reqs.map (fun r => EngineEvent.dispatch r.1 r.2) ++
          [EngineEvent.closeChannels, EngineEvent.terminatePool] ∧
    (LoadImage p cs oc false).sent = [] :=
  ⟨engineRun_protocol reqs rest, rfl⟩

/-- C4: for every image and positive bounding size, the decode
operation returns the `PIL.Image.thumbnail` raster; it is never larger
than the original image, whenever the bounding size does not already
contain the image its longer side equals the bounding size (aspect-fit),
and a 1000×500 image with size hint 200 yields a 200×100 raster. -/
theorem decode_downscale (p : FsPath) (w h s : ℕ)
    (hw : 1 ≤ w) (hh : 1 ≤ h) (hs : 1 ≤ s) :
    (decodePart p s (.ok w h)).2
        = some ⟨(pilThumbnail w h s s).1, (pilThumbnail w h s s).2⟩ ∧
    (pilThumbnail w h s s).1 ≤ w ∧ (pilThumbnail w h s s).2 ≤ h ∧
    ((s < w ∨ s < h) → max (pilThumbnail w h s s).1 (pilThumbnail w h s s).2 = s) ∧
    pilThumbnail 1000 500 200 200 = (200, 100) := by
  have h1 := pilThumbnail_le w h s hw hh hs
  exact ⟨rfl, h1.1, h1.2.1, h1.2.2, pilThumbnail_concrete⟩

/-- C4 (witness): the decode bounds at a concrete 3×2 image with
bounding size 2. -/
theorem decode_downscale_witness :
    ((1:ℕ) ≤ 3 ∧ (1:ℕ) ≤ 2) ∧
    ((decodePart exPath 2 (.ok 3 2)).2
        = some ⟨(pilThumbnail 3 2 2 2).1, (pilThumbnail 3 2 2 2).2⟩ ∧
      (pilThumbnail 3 2 2 2).1 ≤ 3 ∧ (pilThumbnail 3 2 2 2).2 ≤ 2 ∧
      ((2 < 3 ∨ 2 < 2) → max (pilThumbnail 3 2 2 2).1 (pilThumbnail 3 2 2 2).2 = 2) ∧
      pilThumbnail 1000 500 200 200 = (200, 100)) :=
  ⟨by decide, decode_downscale exPath 3 2 2 (by decide) (by decide) (by decide)⟩

/-- C5: on either decode failure (open or thumbnail raising) the worker
publishes exactly one result for the submitted path with no raster, and
queues exactly one log entry, at warning level, embedding the file
name. -/
theorem decode_failure_publishes_none (p : FsPath) (cs : ℕ) (oc : DecodeOutcome)
    (h : oc = .openFail ∨ oc = .thumbFail) :
    (LoadImage p cs oc true).sent = [(p, none)] ∧
    (LoadImage p cs oc true).logs.map LogMsg.level = [WARN] ∧
    ∀ m ∈ (LoadImage p cs oc true).logs, m.mentions p.name := by
  rcases h with rfl | rfl <;>
    exact ⟨rfl, rfl, by intro m hm; simp [LoadImage, decodePart] at hm; subst hm; rfl⟩

/-- C5 (witness): the failure contract at the concrete path `b.jpg`
whose `Image.open` raises. -/
theorem decode_failure_publishes_none_witness :
    (DecodeOutcome.openFail = DecodeOutcome.openFail ∨
      DecodeOutcome.openFail = DecodeOutcome.thumbFail) ∧
    ((LoadImage exPathB 200 .openFail true).sent = [(exPathB, none)] ∧
      (LoadImage exPathB 200 .openFail true).logs.map LogMsg.level = [WARN] ∧
      ∀ m ∈ (LoadImage exPathB 200 .openFail true).logs, m.mentions exPathB.name) :=
  ⟨Or.inl rfl, decode_failure_publishes_none exPathB 200 .openFail (Or.inl rfl)⟩

/-- C6: every published result carries the path of exactly one prior
dispatched request: over any request list and any per-path decode
outcomes, the sequence of result keys equals the sequence of submitted
keys, so each key occurs among the results exactly as often as it was
submitted. -/
theorem result_keys_match_submits (reqs : List (FsPath × ℕ)) (oc : FsPath → DecodeOutcome) :
    (engineResults reqs oc).map Prod.fst = reqs.map Prod.fst ∧
    ∀ k : FsPath, ((engineResults reqs oc).map Prod.fst).count k
        = (reqs.map Prod.fst).count k := by
  have h := engineResults_keys reqs oc
  exact ⟨h, fun k => by rw [h]⟩

/-- C7: a drained result is routed by key: an untracked key leaves the
dictionary untouched (silent discard, no crash), and a tracked key gets
`ReceiveImage` applied to exactly its container — which leaves the
pending (`imageLoading`) state — with every other key's entry
unchanged. -/
theorem drain_routes_by_key (d : List (FsPath × Container)) (p : FsPath) (img : Option Raster) :
    (lookupC d p = none → applyResult d p img = d) ∧
    ∀ c, lookupC d p = some c →
      lookupC (applyResult d p img) p = some (c.ReceiveImage img) ∧
      (c.ReceiveImage img).imageLoading = false ∧
      ∀ q, q ≠ p → lookupC (applyResult d p img) q = lookupC d q := by
  refine ⟨fun h => applyResult_not_tracked d p img h, fun c h => ?_⟩
  exact ⟨applyResult_tracked d p img c h, receiveImage_imageLoading c img,
    fun q hq => applyResult_other d p q img hq⟩

/-- C7 (witness): routing a failed result for the tracked key `exPath`
in a one-entry dictionary. -/
theorem drain_routes_by_key_witness :
    lookupC exDict exPath = some exLoading ∧
    lookupC (applyResult exDict exPath none) exPath = some (exLoading.ReceiveImage none) :=
  ⟨rfl, ((drain_routes_by_key exDict exPath none).2 exLoading rfl).1⟩

/-- C8 (counterexample): there is no distinguishable "failed"
placeholder.  For the concrete container that is showing the loading
icon at opacity 64, applying a failed result leaves the rendered
appearance exactly equal to the loading state's appearance — the failed
state is indistinguishable from the loading state, contradicting the
claimed distinct placeholder. -/
theorem failed_looks_like_loading :
    appearanceOf (exLoading.ReceiveImage none) = appearanceOf exLoading ∧
    appearanceOf exLoading = some (ImgData.iconLoading, 64) ∧
    exLoading.imageLoading = true := by decide

/-- C8 (amended): applying a failed result leaves the loading
placeholder sprite unchanged and persistent (the dimmed loading icon,
not a distinct failed appearance); the failure is never retried
automatically while the item stays visible (no new request is submitted
on later scrolls); and processing a result for one key never changes
any sibling entry. -/
theorem failure_keeps_placeholder (c : Container) (y : ℤ)
    (d : List (FsPath × Container)) (p q : FsPath) (img : Option Raster)
    (hload : c.imageLoaded = true)
    (hv : visibleAt c.screenHeight c.containerSize y = true)
    (hq : q ≠ p) :
    (c.ReceiveImage none).sprite = c.sprite ∧
    ((c.ReceiveImage none).setY y).2 = [] ∧
    lookupC (applyResult d p img) q = lookupC d q := by
  have hframe := receiveImage_none_frame c none (Or.inl rfl)
  refine ⟨by rw [hframe], ?_, applyResult_other d p q img hq⟩
  have hfields := receiveImage_fields c none
  have hv2 : visibleAt (c.ReceiveImage none).screenHeight
      (c.ReceiveImage none).containerSize y = true := by
    rwa [hfields.2.2.1, hfields.2.2.2.1]
  rcases setY_emit (c.ReceiveImage none) y hv2 with ⟨_, he, _⟩ | ⟨hl, _, _⟩ | ⟨hl, _, _⟩
  · exact he
  · rw [hfields.2.1, hload] at hl; exact absurd hl (by simp)
  · rw [hfields.2.1, hload] at hl; exact absurd hl (by simp)

/-- C8 (witness): the amended behaviour at the concrete loading
container, a visible scroll position, and a sibling key. -/
theorem failure_keeps_placeholder_witness :
    (exLoading.imageLoaded = true ∧
      visibleAt exLoading.screenHeight exLoading.containerSize 0 = true ∧ exPathB ≠ exPath) ∧
    ((exLoading.ReceiveImage none).sprite = exLoading.sprite ∧
      ((exLoading.ReceiveImage none).setY 0).2 = [] ∧
      lookupC (applyResult exDict exPath none) exPathB = lookupC exDict exPathB) :=
  ⟨⟨by decide, by decide, by decide⟩,
    failure_keeps_placeholder exLoading 0 exDict exPath exPathB none
      (by decide) (by decide) (by decide)⟩

/-- C9 (counterexample): a malformed sentinel is not defensively
ignored.  The concrete message `(some "a.png", None)` — a real path with
a missing size, distinct from the reserved sentinel `(None, None)` —
takes the `else` branch of the dispatch loop and triggers shutdown. -/
theorem malformed_sentinel_shuts_down :
    engineStep (some exPath, none) = StepAction.shutdown ∧
    ((some exPath, (none : Option ℕ)) : Msg) ≠ ((none, none) : Msg) := by decide

/-- C9 (amended): the engine shuts down on exactly the messages with a
`None` component: malformed pairs are treated like the reserved
sentinel, not ignored; only fully well-formed pairs are dispatched. -/
theorem shutdown_iff_none_component (m : Msg) :
    engineStep m = StepAction.shutdown ↔ (m.1 = none ∨ m.2 = none) := by
  rcases m with ⟨_ | p, _ | s⟩ <;> simp [engineStep]

/-- C10: receiving a failed result (no raster), or any result while the
container has no sprite, changes only the `imageLoading` flag: the
resulting container is the original with `imageLoading := false`, so
sprite (image, opacity, position), label, gridlines, `imageLoaded` and
path are all untouched. -/
theorem receive_none_only_clears_loading (c : Container) (img : Option Raster)
    (h : img = none ∨ c.sprite = none) :
    c.ReceiveImage img = { c with imageLoading := false } :=
  receiveImage_none_frame c img h

/-- C10 (witness): the frame property at the concrete loading container
and a failed result. -/
theorem receive_none_only_clears_loading_witness :
    ((none : Option Raster) = none ∨ exLoading.sprite = none) ∧
    exLoading.ReceiveImage none = { exLoading with imageLoading := false } :=
  ⟨Or.inl rfl, receive_none_only_clears_loading exLoading none (Or.inl rfl)⟩
